import Mathlib

/-!
Shallow embedding of the segmented screen-capture pipeline
(`movie_recorder.py`, `screen_recorder_with_audio.py`, `api.py`).

Filesystem state is modelled as a partial map from path to file size in
bytes (`FS`); `none` means the path does not exist.  External process
outcomes (encoder exit status, merge-tool result, upload result,
transcription-backend result) are inputs to the embedded functions, since
they are decided by the environment, not by this code.
-/

/-- A filesystem: each path is either absent (`none`) or present with a
size in bytes. -/
def FS : Type := String → Option Nat

/-- `os.path.exists`. -/
def FS.exists (fs : FS) (p : String) : Bool := (fs p).isSome

/-- `os.path.getsize`, with 0 for a missing file (the code only calls it
after an existence check). -/
def FS.getsize (fs : FS) (p : String) : Nat := (fs p).getD 0

/-- `os.remove`. -/
def FS.remove (fs : FS) (p : String) : FS :=
  fun q => if q = p then none else fs q

/-- Writing / copying a file of size `sz` to path `p`. -/
def FS.write (fs : FS) (p : String) (sz : Nat) : FS :=
  fun q => if q = p then some sz else fs q

/-- Result of one attempted remote upload, decided by the network /
storage backend. -/
inductive UploadOutcome where
  | success
  | clientError
  | otherError
deriving DecidableEq, Repr

namespace MovieRec

/-!  `movie_recorder.py`, class `S3Uploader`.  -/

/-- `S3Uploader.queue_upload` (movie_recorder.py:109-113): the path is
appended to the upload queue only if the file exists and its size is
greater than zero; otherwise the call leaves the queue unchanged. -/
def queue_upload (fs : FS) (q : List String) (file_path : String) : List String :=
  if fs.exists file_path && decide (0 < fs.getsize file_path) then
    q ++ [file_path]
  else
    q

/-- `S3Uploader._upload_file` (movie_recorder.py:77-107): if the file is
missing the upload is skipped; otherwise the upload is attempted and any
failure is caught and logged.  No branch modifies the local filesystem. -/
def upload_file (fs : FS) (file_path : String) (out : UploadOutcome) : FS :=
  if !(fs.exists file_path) then
    fs
  else
    match out with
    | UploadOutcome.success => fs
    | UploadOutcome.clientError => fs
    | UploadOutcome.otherError => fs

/-- One iteration of `S3Uploader._upload_worker` (movie_recorder.py:67-75)
with a non-empty queue: the head job is taken off the queue, uploaded with
`_upload_file` (which swallows every failure), and never re-enqueued. -/
def upload_worker_step (fs : FS) (q : List String) (out : UploadOutcome) :
    FS × List String :=
  match q with
  | [] => (fs, [])
  | file_path :: rest => (upload_file fs file_path out, rest)

end MovieRec

namespace ScreenRec

/-!  `screen_recorder_with_audio.py`, class `S3Uploader`.  -/

/-- `S3Uploader.queue_upload` (screen_recorder_with_audio.py:75-78): the
path is put on the queue unconditionally — there is no existence or size
check in this variant. -/
def queue_upload (q : List String) (file_path : String) : List String :=
  q ++ [file_path]

/-- `S3Uploader._upload_file` (screen_recorder_with_audio.py:56-73): on a
successful upload the local file is deleted (`os.remove`); on any failure
the error is logged and the filesystem is left unchanged. -/
def upload_file (fs : FS) (file_path : String) (out : UploadOutcome) : FS :=
  match out with
  | UploadOutcome.success => fs.remove file_path
  | UploadOutcome.clientError => fs
  | UploadOutcome.otherError => fs

/-- One iteration of `S3Uploader._upload_worker`
(screen_recorder_with_audio.py:46-54) with a non-empty queue: the head job
is taken, uploaded, and never re-enqueued. -/
def upload_worker_step (fs : FS) (q : List String) (out : UploadOutcome) :
    FS × List String :=
  match q with
  | [] => (fs, [])
  | file_path :: rest => (upload_file fs file_path out, rest)

end ScreenRec

namespace MovieRec

/-!  `movie_recorder.py`, class `MovieRecorder`: quality presets.  -/

/-- The three quality tiers. -/
inductive Quality where
  | low
  | medium
  | high
deriving DecidableEq, Repr

/-- The key each tier uses in the `quality_presets` dict. -/
def Quality.key : Quality → String
  | Quality.low => "low"
  | Quality.medium => "medium"
  | Quality.high => "high"

/-- `MovieRecorder.quality_presets` (movie_recorder.py:261-265), a dict
from tier name to CRF value (as a string, passed to ffmpeg);
`ScreenRecorder.quality_presets` (screen_recorder_with_audio.py:101-105)
is the identical dict. -/
def quality_presets (key : String) : Option String :=
  if key = "low" then some "28"
  else if key = "medium" then some "23"
  else if key = "high" then some "18"
  else none

/-- The CRF selection in `MovieRecorder._record_segment`
(movie_recorder.py:274): `self.quality_presets.get(self.quality, "23")`. -/
def record_segment_crf (quality : String) : String :=
  (quality_presets quality).getD "23"

/-- Numeric value of a decimal CRF string as ffmpeg reads it. -/
def crfNat (s : String) : Nat :=
  s.data.foldl (fun acc c => acc * 10 + (c.toNat - Char.toNat '0')) 0

end MovieRec

namespace AudioProcessor

/-!  `movie_recorder.py`, class `AudioProcessor`.  -/

/-- How the external ffmpeg audio-extraction run ends
(movie_recorder.py:162-182): a clean exit, a nonzero exit, a timeout
(`subprocess.TimeoutExpired`), or any other raised error.  `created`
records whether the output file exists afterwards. -/
inductive ExtractOutcome where
  | cleanExit (created : Bool)
  | nonzeroExit
  | timedOut
  | otherError
deriving DecidableEq, Repr

/-- How a call to the transcription backend ends
(movie_recorder.py:192-232): a text response, or any raised error
(auth failure, quota, malformed response, file I/O). -/
inductive BackendOutcome where
  | response
  | backendError
deriving DecidableEq, Repr

/-- The derived audio path: `video_path.replace('.mp4', '.mp3')`
(movie_recorder.py:148), modelled for paths ending in `.mp4`. -/
def audio_path_of (video_path : String) : String :=
  (video_path.dropRight 4) ++ ".mp3"

/-- The derived transcript path: `audio_path.replace('.mp3',
'_transcript.txt')` (movie_recorder.py:190), modelled for paths ending in
`.mp3`. -/
def transcript_path_of (audio_path : String) : String :=
  (audio_path.dropRight 4) ++ "_transcript.txt"

/-- `AudioProcessor.extract_audio` (movie_recorder.py:146-182): returns
the audio path only when ffmpeg exited 0 and the output file exists;
a nonzero exit, a timeout, or any other error yields `none`. -/
def extract_audio (video_path : String) (out : ExtractOutcome) : Option String :=
  match out with
  | ExtractOutcome.cleanExit created =>
      if created then some (audio_path_of video_path) else none
  | ExtractOutcome.nonzeroExit => none
  | ExtractOutcome.timedOut => none
  | ExtractOutcome.otherError => none

/-- `AudioProcessor.transcribe` (movie_recorder.py:184-232): returns
`none` immediately when no backend client is configured; otherwise writes
and returns the transcript path on a backend response, and catches any
backend error, yielding `none`. -/
def transcribe (clientConfigured : Bool) (audio_path : String)
    (out : BackendOutcome) : Option String :=
  if !clientConfigured then
    none
  else
    match out with
    | BackendOutcome.response => some (transcript_path_of audio_path)
    | BackendOutcome.backendError => none

/-- The audio-processing pipeline as `MovieRecorder._process_segment`
composes it (movie_recorder.py:442-451): extraction first; transcription
is attempted only when extraction produced an audio path.  The third
component records whether `transcribe` was called at all. -/
def process (video_path : String) (clientConfigured : Bool)
    (eout : ExtractOutcome) (tout : BackendOutcome) :
    Option String × Option String × Bool :=
  match extract_audio video_path eout with
  | none => (none, none, false)
  | some audio_path => (some audio_path, transcribe clientConfigured audio_path tout, true)

end AudioProcessor

namespace MovieRec

/-!  `movie_recorder.py`, `MovieRecorder.stop`: early-stop escalation.  -/

/-- How the in-flight encoder process responds to the stop protocol
(movie_recorder.py:516-535): it exits within the 5-second grace window
after SIGINT; or survives the grace window but exits within 3 seconds of
`terminate()`; or survives both and must be killed; or one of the
`send_signal`/`wait` calls raises an unexpected (non-timeout) error. -/
inductive ProcResponse where
  | exitsInGrace
  | exitsOnTerminate
  | survivesTerminate
  | waitRaises
deriving DecidableEq, Repr

/-- The three process-control primitives the driver can apply. -/
inductive StopAction where
  | sigint
  | terminate
  | kill
deriving DecidableEq, Repr

/-- Grace period after SIGINT: `self.current_process.wait(timeout=5)`
(movie_recorder.py:520). -/
def sigintGraceSeconds : Nat := 5

/-- Second, shorter timeout after `terminate()`:
`self.current_process.wait(timeout=3)` (movie_recorder.py:526). -/
def terminateTimeoutSeconds : Nat := 3

/-- The sequence of process-control actions `MovieRecorder.stop`
(movie_recorder.py:511-540) applies to the current process.  When no
process is in flight (`self.current_process` unset or already exited)
nothing is sent.  Otherwise SIGINT is sent and the driver waits up to the
grace period; on `TimeoutExpired` it terminates and waits the shorter
timeout; on a second `TimeoutExpired` it kills; on any other exception it
kills directly. -/
def stop_actions (inFlight : Bool) (resp : ProcResponse) : List StopAction :=
  if !inFlight then
    []
  else
    match resp with
    | ProcResponse.exitsInGrace => [StopAction.sigint]
    | ProcResponse.exitsOnTerminate => [StopAction.sigint, StopAction.terminate]
    | ProcResponse.survivesTerminate =>
        [StopAction.sigint, StopAction.terminate, StopAction.kill]
    | ProcResponse.waitRaises => [StopAction.sigint, StopAction.kill]

end MovieRec

namespace MovieRec

/-!  `movie_recorder.py`, `MovieRecorder`: segment capture loop,
accumulation, fan-out.  -/

/-- Zero-padded three-digit index, Python `f"{n:03d}"`. -/
def pad3 (n : Nat) : String :=
  if n < 10 then "00" ++ toString n
  else if n < 100 then "0" ++ toString n
  else toString n

/-- `MovieRecorder._get_output_filename` (movie_recorder.py:267-270):
`movie_{timestamp}_{segment_count:03d}.mp4` under the output directory. -/
def get_output_filename (output_dir ts : String) (segment_count : Nat) : String :=
  output_dir ++ "/movie_" ++ ts ++ "_" ++ pad3 segment_count ++ ".mp4"

/-- The accumulated-file name
`accumulated_{session_timestamp}_{segment_count:03d}.mp4`
(movie_recorder.py:385,397). -/
def accumulated_filename (output_dir session_ts : String) (segment_count : Nat) : String :=
  output_dir ++ "/accumulated_" ++ session_ts ++ "_" ++ pad3 segment_count ++ ".mp4"

/-- The concat-manifest name `_concat_list_{segment_count}.txt`
(movie_recorder.py:391). -/
def concat_list_filename (output_dir : String) (segment_count : Nat) : String :=
  output_dir ++ "/_concat_list_" ++ toString segment_count ++ ".txt"

/-- The mutable recorder fields the capture loop touches
(movie_recorder.py:252-258). -/
structure RecorderState where
  accumulate : Bool
  segment_count : Nat
  recorded_segments : List String
  session_timestamp : String
deriving DecidableEq, Repr

/-- Result of one `MovieRecorder._concatenate_segments` call:
the returned path (or `none`), the filesystem afterwards, whether the
external merge tool (ffmpeg concat) was invoked, the ordered manifest
lines written for it, how many source segments the output merges, and
whether the manifest file is gone afterwards. -/
structure ConcatResult where
  output : Option String
  fs : FS
  mergeInvoked : Bool
  manifest : List String
  sources : Nat
  manifestDeleted : Bool

/-- `MovieRecorder._concatenate_segments` (movie_recorder.py:377-433).
With no recorded segments it returns `none` at once.  With exactly one it
copies that segment verbatim (`shutil.copy2`) to a fresh accumulated
name, without invoking the merge tool.  With two or more it writes the
ordered manifest, invokes ffmpeg in stream-copy concat mode, removes the
manifest, and returns the accumulated path only when the tool exited 0
and the output exists; `mergeResult` is `some sz` exactly in that case
(`sz` the produced file's size), `none` on nonzero exit, missing output,
or timeout — in every branch the manifest file ends up removed. -/
def concatenate_segments (output_dir : String) (st : RecorderState)
    (fs : FS) (mergeResult : Option Nat) : ConcatResult :=
  match st.recorded_segments with
  | [] =>
      { output := none, fs := fs, mergeInvoked := false, manifest := [],
        sources := 0, manifestDeleted := true }
  | [src] =>
      let accumulated_path := accumulated_filename output_dir st.session_timestamp st.segment_count
      { output := some accumulated_path,
        fs := fs.write accumulated_path (fs.getsize src),
        mergeInvoked := false, manifest := [], sources := 1,
        manifestDeleted := true }
  | src :: src2 :: rest =>
      let segs := src :: src2 :: rest
      let accumulated_path := accumulated_filename output_dir st.session_timestamp st.segment_count
      match mergeResult with
      | some sz =>
          { output := some accumulated_path,
            fs := fs.write accumulated_path sz,
            mergeInvoked := true, manifest := segs, sources := segs.length,
            manifestDeleted := true }
      | none =>
          { output := none, fs := fs, mergeInvoked := true,
            manifest := segs, sources := segs.length, manifestDeleted := true }

/-- A fan-out call made by `MovieRecorder._process_segment` on behalf of
one finalized artifact. -/
inductive FanoutAction where
  | uploadVideo (p : String)
  | extractAudio (p : String)
  | uploadAudio (p : String)
  | transcribeAudio (p : String)
  | uploadTranscript (p : String)
deriving DecidableEq, Repr

/-- `MovieRecorder._process_segment` (movie_recorder.py:435-454): the
video is queued for upload when an uploader is configured; when an audio
processor is configured, audio is extracted, and only if extraction
returned a path is the audio queued and transcription attempted; only if
transcription returned a path is the transcript queued. -/
def process_segment (hasUploader hasAudioProc clientConfigured : Bool)
    (video_path : String) (eout : AudioProcessor.ExtractOutcome)
    (tout : AudioProcessor.BackendOutcome) : List FanoutAction :=
  (if hasUploader then [FanoutAction.uploadVideo video_path] else []) ++
  (if hasAudioProc then
    FanoutAction.extractAudio video_path ::
    (match AudioProcessor.extract_audio video_path eout with
     | none => []
     | some audio_path =>
       (if hasUploader then [FanoutAction.uploadAudio audio_path] else []) ++
       (FanoutAction.transcribeAudio audio_path ::
        (match AudioProcessor.transcribe clientConfigured audio_path tout with
         | none => []
         | some transcript_path =>
             if hasUploader then [FanoutAction.uploadTranscript transcript_path] else [])))
   else [])

/-- The shared good-segment branch of `MovieRecorder._recording_loop`
(movie_recorder.py:466-475 and 482-488): in accumulate mode the segment
is appended to `recorded_segments`, `_concatenate_segments` is run, and
`_process_segment` is called on its output only when that is non-null; in
direct mode `_process_segment` is called on the raw segment. -/
def handle_good_segment (output_dir : String)
    (hasUploader hasAudioProc clientConfigured : Bool)
    (st : RecorderState) (output_file : String) (fs : FS)
    (mergeResult : Option Nat) (eout : AudioProcessor.ExtractOutcome)
    (tout : AudioProcessor.BackendOutcome) :
    RecorderState × FS × List FanoutAction × Option ConcatResult :=
  if st.accumulate then
    let st1 := { st with recorded_segments := st.recorded_segments ++ [output_file] }
    let cr := concatenate_segments output_dir st1 fs mergeResult
    match cr.output with
    | some accumulated_path =>
        (st1, cr.fs,
         process_segment hasUploader hasAudioProc clientConfigured accumulated_path eout tout,
         some cr)
    | none => (st1, cr.fs, [], some cr)
  else
    (st, fs,
     process_segment hasUploader hasAudioProc clientConfigured output_file eout tout,
     none)

/-- The observable outcome of one iteration of the capture loop. -/
structure RoundResult where
  state : RecorderState
  fs : FS
  dispatched : List FanoutAction
  acc : Option ConcatResult
  breaks : Bool

/-- One iteration of `MovieRecorder._recording_loop`
(movie_recorder.py:456-492), entered with `self.running` true.  The
iteration runs `_record_segment` to completion (the loop blocks on the
encoder's exit); `success` is its return value, `fs` the filesystem after
the encoder exited, and `runningAfter` the value of `self.running` when
the branch conditions are evaluated (a concurrent `stop()` flips it to
false).  A segment whose file exceeds 1000 bytes after a clean exit is
fanned out and the counter advances; on a stop with a surviving partial
file over the threshold the same fan-out runs once more and the loop
breaks; an undersized/failed segment while still running only advances
the counter. -/
def recording_loop_round (output_dir ts : String)
    (hasUploader hasAudioProc clientConfigured : Bool)
    (st : RecorderState) (success : Bool) (fs : FS) (runningAfter : Bool)
    (mergeResult : Option Nat) (eout : AudioProcessor.ExtractOutcome)
    (tout : AudioProcessor.BackendOutcome) : RoundResult :=
  let output_file := get_output_filename output_dir ts st.segment_count
  if success && fs.exists output_file && decide (1000 < fs.getsize output_file) then
    let r := handle_good_segment output_dir hasUploader hasAudioProc clientConfigured
               st output_file fs mergeResult eout tout
    { state := { r.1 with segment_count := r.1.segment_count + 1 },
      fs := r.2.1, dispatched := r.2.2.1, acc := r.2.2.2, breaks := false }
  else if !runningAfter then
    if fs.exists output_file && decide (1000 < fs.getsize output_file) then
      let r := handle_good_segment output_dir hasUploader hasAudioProc clientConfigured
                 st output_file fs mergeResult eout tout
      { state := r.1, fs := r.2.1, dispatched := r.2.2.1, acc := r.2.2.2, breaks := true }
    else
      { state := st, fs := fs, dispatched := [], acc := none, breaks := true }
  else
    { state := { st with segment_count := st.segment_count + 1 },
      fs := fs, dispatched := [], acc := none, breaks := false }

end MovieRec

namespace Api

/-!  `api.py`: the operator-facing recording endpoints over the global
`recorder_state` dict.  -/

/-- The response model `RecordingStatus` (api.py:139-143). -/
structure RecordingStatus where
  is_recording : Bool
  session_id : Option String
  current_video : Option String
  video_url : Option String
deriving DecidableEq, Repr

/-- The fields of the global `recorder_state` dict (api.py:76-82);
`hasRecorder` models whether `recorder_state["recorder"]` is non-null. -/
structure ApiState where
  is_recording : Bool
  current_video : Option String
  session_id : Option String
  hasRecorder : Bool
deriving DecidableEq, Repr

/-- `recorder_state` as initialized at module load (api.py:76-82). -/
def initialState : ApiState :=
  { is_recording := false, current_video := none, session_id := none,
    hasRecorder := false }

/-- `os.path.basename`, for slash-separated paths: everything after the
last slash. -/
def basename (p : String) : String :=
  String.mk ((p.data.reverse.takeWhile (fun c => c ≠ '/')).reverse)

/-- One directory entry: file name (the stored path) and modification
time. -/
structure DirEntry where
  name : String
  mtime : Nat
deriving DecidableEq, Repr

/-- The glob `*.mp4` (api.py:224). -/
def isMp4 (n : String) : Bool := ".mp4".data.isSuffixOf n.data

/-- The glob `accumulated_*.mp4` (api.py:223), on base names. -/
def isAccumulated (n : String) : Bool :=
  "accumulated_".data.isPrefixOf (basename n).data && ".mp4".data.isSuffixOf n.data

/-- `sorted(files, key=os.path.getmtime, reverse=True)[0]`: the first
listed entry among those with maximal modification time (Python's sort is
stable), or `none` for an empty list. -/
def latest (l : List DirEntry) : Option DirEntry :=
  l.foldl (fun acc e =>
    match acc with
    | none => some e
    | some a => if a.mtime < e.mtime then some e else some a) none

/-- `start_recording` (api.py:159-201).  A start while `is_recording` is
already set raises HTTP 400 before touching any state.  Otherwise the
session id is stored, and — when recorder construction succeeds
(`ctorOk`) — the recorder is installed and `is_recording` set; a
construction error resets `is_recording` and raises HTTP 500.  The
response of a successful start carries `current_video = None`. -/
def start_recording (st : ApiState) (sid : String) (ctorOk : Bool) :
    ApiState × Except Nat RecordingStatus :=
  if st.is_recording then
    (st, Except.error 400)
  else
    let st1 := { st with session_id := some sid }
    if ctorOk then
      ({ st1 with is_recording := true, hasRecorder := true },
       Except.ok { is_recording := true, session_id := some sid,
                   current_video := none, video_url := none })
    else
      ({ st1 with is_recording := false }, Except.error 500)

/-- `stop_recording` (api.py:204-254).  A stop while not recording raises
HTTP 400 with no state change.  Otherwise the recorder is stopped
(`stopOk` false models an exception from that call: `is_recording` is
reset and HTTP 500 raised); on success the newest `accumulated_*.mp4` in
the output directory is preferred as `current_video`, falling back to the
newest `*.mp4`, else null, and the session ends. -/
def stop_recording (st : ApiState) (dir : List DirEntry) (stopOk : Bool) :
    ApiState × Except Nat RecordingStatus :=
  if !st.is_recording then
    (st, Except.error 400)
  else if !stopOk then
    ({ st with is_recording := false }, Except.error 500)
  else
    let accumulated := latest (dir.filter fun e => isAccumulated e.name)
    let all_videos := latest (dir.filter fun e => isMp4 e.name)
    let current_video :=
      match accumulated with
      | some a => some a.name
      | none =>
          match all_videos with
          | some v => some v.name
          | none => none
    let video_url := current_video.map (fun v => "/api/videos/" ++ basename v)
    ({ st with current_video := current_video, is_recording := false,
               hasRecorder := false },
     Except.ok { is_recording := false, session_id := st.session_id,
                 current_video := current_video, video_url := video_url })

/-- `get_recording_status` (api.py:257-270): reports the stored
`recorder_state` fields verbatim, deriving the URL from the stored
`current_video`. -/
def get_recording_status (st : ApiState) : RecordingStatus :=
  { is_recording := st.is_recording,
    session_id := st.session_id,
    current_video := st.current_video,
    video_url := st.current_video.map (fun v => "/api/videos/" ++ basename v) }

end Api

/-!  Concrete example data used by witnesses and counterexamples.  -/

/-- An empty filesystem. -/
def emptyFS : FS := fun _ => none

/-- A filesystem holding three finished segment files of a session with
timestamp `t` (each 2000 bytes, above the 1000-byte threshold) and one
unrelated video. -/
def exampleFS : FS := fun p =>
  if p = "out/movie_t_000.mp4" then some 2000
  else if p = "out/movie_t_001.mp4" then some 2000
  else if p = "out/movie_t_002.mp4" then some 2000
  else if p = "rec/a.mp4" then some 5000
  else none

/-- A directory listing after three completed segments and a successful
final accumulation: the accumulated file is the newest entry. -/
def exampleDir : List Api.DirEntry :=
  [{ name := "out/movie_t_000.mp4", mtime := 1 },
   { name := "out/movie_t_001.mp4", mtime := 2 },
   { name := "out/movie_t_002.mp4", mtime := 3 },
   { name := "out/accumulated_t_002.mp4", mtime := 4 }]

/-- A fresh accumulate-mode recorder state for session timestamp `t`. -/
def exampleState0 : MovieRec.RecorderState :=
  { accumulate := true, segment_count := 0, recorded_segments := [],
    session_timestamp := "t" }

/-- First capture round of the accumulate-mode session (api-mode
configuration: no uploader, audio processor without a transcription
client). -/
def roundA : MovieRec.RoundResult :=
  MovieRec.recording_loop_round "out" "t" false true false exampleState0
    true exampleFS true (some 2000)
    (AudioProcessor.ExtractOutcome.cleanExit true)
    AudioProcessor.BackendOutcome.backendError

/-- Second capture round, continuing from `roundA`. -/
def roundB : MovieRec.RoundResult :=
  MovieRec.recording_loop_round "out" "t" false true false roundA.state
    true roundA.fs true (some 4000)
    (AudioProcessor.ExtractOutcome.cleanExit true)
    AudioProcessor.BackendOutcome.backendError

/-- Third capture round, continuing from `roundB`. -/
def roundC : MovieRec.RoundResult :=
  MovieRec.recording_loop_round "out" "t" false true false roundB.state
    true roundB.fs true (some 6000)
    (AudioProcessor.ExtractOutcome.cleanExit true)
    AudioProcessor.BackendOutcome.backendError

/-!  Helper lemmas about the capture loop.  -/

/-- The session state produced by the good-segment fan-out branch: in
accumulate mode the segment is appended, otherwise the state is
untouched; in particular it does not depend on the uploader, the audio
processor, or the merge outcome. -/
theorem MovieRec.handle_good_segment_fst (od : String) (hU hA cc : Bool)
    (st : MovieRec.RecorderState) (f : String) (fs : FS) (mr : Option Nat)
    (eout : AudioProcessor.ExtractOutcome) (tout : AudioProcessor.BackendOutcome) :
    (MovieRec.handle_good_segment od hU hA cc st f fs mr eout tout).1 =
      if st.accumulate then
        { st with recorded_segments := st.recorded_segments ++ [f] }
      else st := by
  simp only [MovieRec.handle_good_segment]
  split
  · split <;> rfl
  · rfl

/-- Characterization of the segment list across one capture-loop
iteration: it grows by exactly the new output file when the state is in
accumulate mode, the file survived its size check, and the segment either
completed normally or the loop is performing its final stop-time pass;
in every other case it is unchanged. -/
theorem MovieRec.round_segments (od ts : String) (hU hA cc : Bool)
    (st : MovieRec.RecorderState) (success : Bool) (fs : FS)
    (runningAfter : Bool) (mr : Option Nat)
    (eout : AudioProcessor.ExtractOutcome) (tout : AudioProcessor.BackendOutcome) :
    (MovieRec.recording_loop_round od ts hU hA cc st success fs runningAfter mr eout tout).state.recorded_segments =
      if (st.accumulate && (success || !runningAfter) &&
          fs.exists (MovieRec.get_output_filename od ts st.segment_count) &&
          decide (1000 < fs.getsize (MovieRec.get_output_filename od ts st.segment_count))) = true
      then st.recorded_segments ++ [MovieRec.get_output_filename od ts st.segment_count]
      else st.recorded_segments := by
  have hf := MovieRec.handle_good_segment_fst od hU hA cc st
    (MovieRec.get_output_filename od ts st.segment_count) fs mr eout tout
  simp only [MovieRec.recording_loop_round]
  cases hsu : success <;> cases hru : runningAfter <;>
    cases hex : fs.exists (MovieRec.get_output_filename od ts st.segment_count) <;>
      cases hsz : decide (1000 < fs.getsize (MovieRec.get_output_filename od ts st.segment_count)) <;>
        cases hacc : st.accumulate <;>
          simp_all

/-- C3: a segment is appended to the session's ordered segment list only
after its encoder process has exited (the loop body modelled by
`recording_loop_round` runs only once `_record_segment`'s blocking wait
on the encoder has returned) and only when the output file passed the
1000-byte size check; the list is append-only — one iteration either
leaves it unchanged or appends exactly the new segment at the tail, so
its length never decreases. -/
theorem C3_segment_list_append_only (od ts : String) (hU hA cc : Bool)
    (st : MovieRec.RecorderState) (success : Bool) (fs : FS)
    (runningAfter : Bool) (mr : Option Nat)
    (eout : AudioProcessor.ExtractOutcome) (tout : AudioProcessor.BackendOutcome) :
    ((MovieRec.recording_loop_round od ts hU hA cc st success fs runningAfter mr eout tout).state.recorded_segments
        = st.recorded_segments ∨
     (MovieRec.recording_loop_round od ts hU hA cc st success fs runningAfter mr eout tout).state.recorded_segments
        = st.recorded_segments ++ [MovieRec.get_output_filename od ts st.segment_count]) ∧
    st.recorded_segments.length ≤
      (MovieRec.recording_loop_round od ts hU hA cc st success fs runningAfter mr eout tout).state.recorded_segments.length ∧
    ((MovieRec.recording_loop_round od ts hU hA cc st success fs runningAfter mr eout tout).state.recorded_segments
        ≠ st.recorded_segments →
      fs.exists (MovieRec.get_output_filename od ts st.segment_count) = true ∧
      1000 < fs.getsize (MovieRec.get_output_filename od ts st.segment_count)) := by
  rw [MovieRec.round_segments]
  by_cases hb : (st.accumulate && (success || !runningAfter) &&
      fs.exists (MovieRec.get_output_filename od ts st.segment_count) &&
      decide (1000 < fs.getsize (MovieRec.get_output_filename od ts st.segment_count))) = true
  · have h' := hb
    simp only [Bool.and_eq_true, decide_eq_true_eq] at h'
    exact ⟨Or.inr (by simp [hb]), by simp [hb], fun _ => ⟨h'.1.2, h'.2⟩⟩
  · exact ⟨Or.inl (by simp [hb]), by simp [hb], fun hne => absurd (by simp [hb]) hne⟩

/-- C3 witness: a concrete first capture round in accumulate mode, with a
2000-byte output file, appends that segment; the theorem's hypothesis
(the list changed) is discharged by computation. -/
theorem C3_segment_list_append_only_witness :
    FS.exists exampleFS (MovieRec.get_output_filename "out" "t" 0) = true ∧
    1000 < FS.getsize exampleFS (MovieRec.get_output_filename "out" "t" 0) :=
  (C3_segment_list_append_only "out" "t" false true false exampleState0 true
    exampleFS true (some 2000) (AudioProcessor.ExtractOutcome.cleanExit true)
    AudioProcessor.BackendOutcome.backendError).2.2 (by decide)

/-- C5: for the three quality tiers, the compression parameter (CRF)
selected by `_record_segment` is "28"/"23"/"18", pairwise distinct, and
monotonically non-increasing from low to high: low's CRF ≥ medium's CRF ≥
high's CRF. -/
theorem C5_quality_crf_distinct_monotone :
    (MovieRec.record_segment_crf MovieRec.Quality.low.key = "28" ∧
     MovieRec.record_segment_crf MovieRec.Quality.medium.key = "23" ∧
     MovieRec.record_segment_crf MovieRec.Quality.high.key = "18") ∧
    (MovieRec.record_segment_crf MovieRec.Quality.low.key ≠
       MovieRec.record_segment_crf MovieRec.Quality.medium.key ∧
     MovieRec.record_segment_crf MovieRec.Quality.medium.key ≠
       MovieRec.record_segment_crf MovieRec.Quality.high.key ∧
     MovieRec.record_segment_crf MovieRec.Quality.low.key ≠
       MovieRec.record_segment_crf MovieRec.Quality.high.key) ∧
    (MovieRec.crfNat (MovieRec.record_segment_crf MovieRec.Quality.medium.key) ≤
       MovieRec.crfNat (MovieRec.record_segment_crf MovieRec.Quality.low.key) ∧
     MovieRec.crfNat (MovieRec.record_segment_crf MovieRec.Quality.high.key) ≤
       MovieRec.crfNat (MovieRec.record_segment_crf MovieRec.Quality.medium.key)) := by
  decide

/-- C8 counterexample: the claim quantifies over both uploaders' enqueue
operations, but `queue_upload` in `screen_recorder_with_audio.py` has no
existence check: enqueuing a path that exists on no filesystem (here the
empty one) still grows the queue from length 0 to length 1. -/
theorem C8_counterexample :
    FS.exists emptyFS "ghost.mp4" = false ∧
    (ScreenRec.queue_upload [] "ghost.mp4").length = 1 := by
  decide

/-- C8 amended: `movie_recorder.py`'s `queue_upload` adds no job when the
file is missing or zero-byte and enqueues exactly one job when the file
exists with positive size; `screen_recorder_with_audio.py`'s
`queue_upload` enqueues unconditionally. -/
theorem C8_enqueue_guard (fs : FS) (q : List String) (p : String) :
    ((fs.exists p = false ∨ fs.getsize p = 0) → MovieRec.queue_upload fs q p = q) ∧
    (fs.exists p = true → 0 < fs.getsize p →
       MovieRec.queue_upload fs q p = q ++ [p]) ∧
    ScreenRec.queue_upload q p = q ++ [p] := by
  refine ⟨fun h => ?_, fun he hs => ?_, rfl⟩
  · rcases h with h | h <;> simp [MovieRec.queue_upload, h]
  · simp [MovieRec.queue_upload, he, hs]

/-- C8 amended witness: on the empty filesystem the movie-recorder
enqueue of a missing path leaves the queue empty, while the
screen-recorder enqueue appends it. -/
theorem C8_enqueue_guard_witness :
    MovieRec.queue_upload emptyFS [] "ghost.mp4" = [] ∧
    ScreenRec.queue_upload [] "ghost.mp4" = ["ghost.mp4"] :=
  ⟨(C8_enqueue_guard emptyFS [] "ghost.mp4").1 (Or.inl (by decide)),
   (C8_enqueue_guard emptyFS [] "ghost.mp4").2.2⟩

/-- C6: the audio pipeline is total over every modelled extraction and
backend outcome (each exception branch of the source is caught and mapped
to a value): when extraction times out or the extraction tool exits
nonzero, `process` returns null for both paths and transcription is not
attempted; when extraction succeeds but no transcription backend is
configured, it returns a non-null audio path and a null transcript; any
backend error yields a null transcript rather than propagating. -/
theorem C6_audio_error_policy (video : String) (cc : Bool)
    (eout : AudioProcessor.ExtractOutcome) (tout : AudioProcessor.BackendOutcome) :
    ((eout = AudioProcessor.ExtractOutcome.timedOut ∨
      eout = AudioProcessor.ExtractOutcome.nonzeroExit) →
       AudioProcessor.process video cc eout tout = (none, none, false)) ∧
    (cc = false →
       AudioProcessor.process video cc (AudioProcessor.ExtractOutcome.cleanExit true) tout =
         (some (AudioProcessor.audio_path_of video), none, true)) ∧
    (tout = AudioProcessor.BackendOutcome.backendError →
       (AudioProcessor.process video cc eout tout).2.1 = none) := by
  refine ⟨fun h => ?_, fun h => ?_, fun h => ?_⟩
  · rcases h with h | h <;> subst h <;>
      simp [AudioProcessor.process, AudioProcessor.extract_audio]
  · subst h
    simp [AudioProcessor.process, AudioProcessor.extract_audio, AudioProcessor.transcribe]
  · subst h
    cases eout with
    | cleanExit created =>
        cases created <;> cases cc <;>
          simp [AudioProcessor.process, AudioProcessor.extract_audio,
                AudioProcessor.transcribe]
    | nonzeroExit => simp [AudioProcessor.process, AudioProcessor.extract_audio]
    | timedOut => simp [AudioProcessor.process, AudioProcessor.extract_audio]
    | otherError => simp [AudioProcessor.process, AudioProcessor.extract_audio]

/-- C6 witness: on a concrete video, a timed-out extraction yields
(null, null) with transcription unattempted, and a successful extraction
with no configured backend yields the audio path and a null transcript. -/
theorem C6_audio_error_policy_witness :
    AudioProcessor.process "v.mp4" false AudioProcessor.ExtractOutcome.timedOut
        AudioProcessor.BackendOutcome.response = (none, none, false) ∧
    AudioProcessor.process "v.mp4" false (AudioProcessor.ExtractOutcome.cleanExit true)
        AudioProcessor.BackendOutcome.response =
      (some (AudioProcessor.audio_path_of "v.mp4"), none, true) :=
  ⟨(C6_audio_error_policy "v.mp4" false AudioProcessor.ExtractOutcome.timedOut
      AudioProcessor.BackendOutcome.response).1 (Or.inl rfl),
   (C6_audio_error_policy "v.mp4" false (AudioProcessor.ExtractOutcome.cleanExit true)
      AudioProcessor.BackendOutcome.response).2.1 rfl⟩

/-- C9: a start request while a session is recording fails with HTTP 400
and leaves the state unchanged; a stop request while idle fails with HTTP
400 and leaves the state unchanged; and after a successful start any
further start is rejected the same way, so at most one active session can
exist. -/
theorem C9_conflict_rejection (st : Api.ApiState) (sid sid2 : String)
    (ctorOk stopOk : Bool) (dir : List Api.DirEntry) :
    (st.is_recording = true →
       Api.start_recording st sid ctorOk = (st, Except.error 400)) ∧
    (st.is_recording = false →
       Api.stop_recording st dir stopOk = (st, Except.error 400)) ∧
    (st.is_recording = false →
       Api.start_recording (Api.start_recording st sid true).1 sid2 ctorOk =
         ((Api.start_recording st sid true).1, Except.error 400)) := by
  refine ⟨fun h => ?_, fun h => ?_, fun h => ?_⟩
  · simp [Api.start_recording, h]
  · simp [Api.stop_recording, h]
  · simp [Api.start_recording, h]

/-- C9 witness: from the initial state, a stop is rejected with 400; after
a successful start, a second start is rejected with 400. -/
theorem C9_conflict_rejection_witness :
    Api.stop_recording Api.initialState exampleDir true =
      (Api.initialState, Except.error 400) ∧
    Api.start_recording (Api.start_recording Api.initialState "s1" true).1 "s2" true =
      ((Api.start_recording Api.initialState "s1" true).1, Except.error 400) :=
  ⟨(C9_conflict_rejection Api.initialState "s1" "s2" true true exampleDir).2.1 rfl,
   (C9_conflict_rejection Api.initialState "s1" "s2" true true exampleDir).2.2 rfl⟩

/-- C4: `_concatenate_segments` returns null on an empty segment list;
with exactly one segment it produces a verbatim copy — the output file's
size equals the source file's size — without invoking the merge tool;
with two or more segments the merge tool is invoked, driven by the
ordered manifest listing the segments in capture order. -/
theorem C4_concatenate_policy (od : String) (st : MovieRec.RecorderState)
    (fs : FS) (mr : Option Nat) :
    (st.recorded_segments = [] →
       (MovieRec.concatenate_segments od st fs mr).output = none) ∧
    (∀ src sz, st.recorded_segments = [src] → fs src = some sz →
       (MovieRec.concatenate_segments od st fs mr).mergeInvoked = false ∧
       (MovieRec.concatenate_segments od st fs mr).output =
         some (MovieRec.accumulated_filename od st.session_timestamp st.segment_count) ∧
       (MovieRec.concatenate_segments od st fs mr).fs
         (MovieRec.accumulated_filename od st.session_timestamp st.segment_count)
           = some sz) ∧
    (2 ≤ st.recorded_segments.length →
       (MovieRec.concatenate_segments od st fs mr).mergeInvoked = true ∧
       (MovieRec.concatenate_segments od st fs mr).manifest = st.recorded_segments) := by
  refine ⟨fun h => ?_, fun src sz h hfs => ?_, fun h => ?_⟩
  · simp [MovieRec.concatenate_segments, h]
  · simp [MovieRec.concatenate_segments, h, FS.write, FS.getsize, hfs]
  · rcases hs : st.recorded_segments with _ | ⟨s0, rest⟩
    · rw [hs] at h; simp at h
    · rcases rest with _ | ⟨s1, rest2⟩
      · rw [hs] at h; simp at h
      · cases mr <;> simp [MovieRec.concatenate_segments, hs]

/-- C4 witness: with no segment the result is null; with the single
2000-byte segment the copy has size 2000 and the merge tool is not
invoked; with two segments the merge tool is invoked on the ordered
manifest. -/
theorem C4_concatenate_policy_witness :
    (MovieRec.concatenate_segments "out"
       { accumulate := true, segment_count := 0, recorded_segments := [],
         session_timestamp := "t" } exampleFS none).output = none ∧
    ((MovieRec.concatenate_segments "out"
       { accumulate := true, segment_count := 1,
         recorded_segments := ["out/movie_t_000.mp4"],
         session_timestamp := "t" } exampleFS none).mergeInvoked = false ∧
     (MovieRec.concatenate_segments "out"
       { accumulate := true, segment_count := 1,
         recorded_segments := ["out/movie_t_000.mp4"],
         session_timestamp := "t" } exampleFS none).fs
         (MovieRec.accumulated_filename "out" "t" 1) = some 2000) ∧
    ((MovieRec.concatenate_segments "out"
       { accumulate := true, segment_count := 2,
         recorded_segments := ["out/movie_t_000.mp4", "out/movie_t_001.mp4"],
         session_timestamp := "t" } exampleFS (some 4000)).mergeInvoked = true ∧
     (MovieRec.concatenate_segments "out"
       { accumulate := true, segment_count := 2,
         recorded_segments := ["out/movie_t_000.mp4", "out/movie_t_001.mp4"],
         session_timestamp := "t" } exampleFS (some 4000)).manifest =
       ["out/movie_t_000.mp4", "out/movie_t_001.mp4"]) :=
  ⟨(C4_concatenate_policy "out"
      { accumulate := true, segment_count := 0, recorded_segments := [],
        session_timestamp := "t" } exampleFS none).1 rfl,
   ⟨((C4_concatenate_policy "out"
      { accumulate := true, segment_count := 1,
        recorded_segments := ["out/movie_t_000.mp4"],
        session_timestamp := "t" } exampleFS none).2.1
      "out/movie_t_000.mp4" 2000 rfl (by decide)).1,
    ((C4_concatenate_policy "out"
      { accumulate := true, segment_count := 1,
        recorded_segments := ["out/movie_t_000.mp4"],
        session_timestamp := "t" } exampleFS none).2.1
      "out/movie_t_000.mp4" 2000 rfl (by decide)).2.2⟩,
   (C4_concatenate_policy "out"
      { accumulate := true, segment_count := 2,
        recorded_segments := ["out/movie_t_000.mp4", "out/movie_t_001.mp4"],
        session_timestamp := "t" } exampleFS (some 4000)).2.2 (by decide)⟩

/-- C2 counterexample: `current_video` is only assigned at stop time, so
the claim's "at every point while a session exists" fails mid-session:
after a successful start, with three completed segments and a fresh
accumulated file present in the output directory, `status()` still
reports a null `current_video` instead of the newest accumulated
artifact. -/
theorem C2_status_counterexample :
    (Api.get_recording_status (Api.start_recording Api.initialState "s1" true).1).current_video
      = none ∧
    Api.latest (exampleDir.filter fun e => Api.isAccumulated e.name) =
      some { name := "out/accumulated_t_002.mp4", mtime := 4 } := by
  decide

/-- C2 amended: `status()` reports the artifact computed at the most
recent stop, not a live view: a start leaves `current_video` untouched
(so mid-session `status()` reports the pre-session value, initially
null); at stop time `current_video` is set to the newest
`accumulated_*.mp4` in the output directory when one exists, else the
newest `*.mp4`, else null, and `status()` then reports exactly that.
After 3 completed segments in accumulate mode the accumulation of the
third round merges 3 source segments into the accumulated file that a
subsequent stop selects. -/
theorem C2_status_reports_stop_artifact (st : Api.ApiState)
    (dir : List Api.DirEntry) (sid : String) (ctorOk : Bool) :
    ((Api.start_recording st sid ctorOk).1.current_video = st.current_video) ∧
    (st.is_recording = true →
       ∀ a, Api.latest (dir.filter fun e => Api.isAccumulated e.name) = some a →
         (Api.stop_recording st dir true).1.current_video = some a.name ∧
         (Api.get_recording_status (Api.stop_recording st dir true).1).current_video
           = some a.name) ∧
    (st.is_recording = true →
       Api.latest (dir.filter fun e => Api.isAccumulated e.name) = none →
       ∀ v, Api.latest (dir.filter fun e => Api.isMp4 e.name) = some v →
         (Api.stop_recording st dir true).1.current_video = some v.name) ∧
    (st.is_recording = true →
       Api.latest (dir.filter fun e => Api.isAccumulated e.name) = none →
       Api.latest (dir.filter fun e => Api.isMp4 e.name) = none →
         (Api.stop_recording st dir true).1.current_video = none) ∧
    (roundC.acc.map MovieRec.ConcatResult.sources = some 3 ∧
     roundC.acc.map MovieRec.ConcatResult.output =
       some (some "out/accumulated_t_002.mp4") ∧
     roundC.state.recorded_segments =
       ["out/movie_t_000.mp4", "out/movie_t_001.mp4", "out/movie_t_002.mp4"]) := by
  refine ⟨?_, fun h a ha => ?_, fun h hn v hv => ?_, fun h hn hv => ?_, by decide⟩
  · by_cases h : st.is_recording <;> cases ctorOk <;> simp [Api.start_recording, h]
  · constructor <;> simp [Api.stop_recording, Api.get_recording_status, h, ha]
  · simp [Api.stop_recording, h, hn, hv]
  · simp [Api.stop_recording, h, hn, hv]

/-- C2 amended witness: stopping the started session over the example
directory selects the newest accumulated file. -/
theorem C2_status_reports_stop_artifact_witness :
    (Api.stop_recording (Api.start_recording Api.initialState "s1" true).1
        exampleDir true).1.current_video = some "out/accumulated_t_002.mp4" :=
  ((C2_status_reports_stop_artifact (Api.start_recording Api.initialState "s1" true).1
      exampleDir "s1" true).2.1 rfl
    { name := "out/accumulated_t_002.mp4", mtime := 4 } (by decide)).1

/-- The session state after one capture-loop iteration does not depend on
whether an uploader is configured: uploads are fire-and-forget fan-out
calls and never feed back into the loop. -/
theorem MovieRec.round_state_uploader_indep (od ts : String) (hU hU2 hA cc : Bool)
    (st : MovieRec.RecorderState) (success : Bool) (fs : FS)
    (runningAfter : Bool) (mr : Option Nat)
    (eout : AudioProcessor.ExtractOutcome) (tout : AudioProcessor.BackendOutcome) :
    (MovieRec.recording_loop_round od ts hU hA cc st success fs runningAfter mr eout tout).state =
    (MovieRec.recording_loop_round od ts hU2 hA cc st success fs runningAfter mr eout tout).state := by
  have hf1 := MovieRec.handle_good_segment_fst od hU hA cc st
    (MovieRec.get_output_filename od ts st.segment_count) fs mr eout tout
  have hf2 := MovieRec.handle_good_segment_fst od hU2 hA cc st
    (MovieRec.get_output_filename od ts st.segment_count) fs mr eout tout
  simp only [MovieRec.recording_loop_round]
  cases hsu : success <;> cases hru : runningAfter <;>
    cases hex : fs.exists (MovieRec.get_output_filename od ts st.segment_count) <;>
      cases hsz : decide (1000 < fs.getsize (MovieRec.get_output_filename od ts st.segment_count)) <;>
        simp_all

/-- C7 counterexample: the claim quantifies over both uploaders, but
`screen_recorder_with_audio.py`'s `_upload_file` deletes the local file
after a successful upload: a file present before the upload is gone
afterwards, so it does not remain on disk "regardless of upload
outcome". -/
theorem C7_counterexample :
    FS.exists exampleFS "rec/a.mp4" = true ∧
    ScreenRec.upload_file exampleFS "rec/a.mp4" UploadOutcome.success "rec/a.mp4"
      = none := by
  decide

/-- C7 amended: for every upload job, a failed upload is dropped — the
worker removes the job from the queue and never re-enqueues it (both
uploaders) — and on failure the local file always remains on disk;
`movie_recorder.py`'s uploader never touches the local filesystem for any
outcome, while `screen_recorder_with_audio.py`'s uploader deletes the
local file after a successful upload; and the capture-loop session state
is independent of the uploader, so a session progresses identically even
if every upload fails. -/
theorem C7_upload_failure_policy (fs : FS) (p : String) (rest : List String)
    (out : UploadOutcome) :
    ((MovieRec.upload_worker_step fs (p :: rest) out).2 = rest) ∧
    ((ScreenRec.upload_worker_step fs (p :: rest) out).2 = rest) ∧
    (∀ q, MovieRec.upload_file fs p out q = fs q) ∧
    (out ≠ UploadOutcome.success → ∀ q, ScreenRec.upload_file fs p out q = fs q) ∧
    (out = UploadOutcome.success → ScreenRec.upload_file fs p out p = none) ∧
    (∀ od ts hA cc st success fs2 runningAfter mr eout tout,
       (MovieRec.recording_loop_round od ts true hA cc st success fs2
          runningAfter mr eout tout).state =
       (MovieRec.recording_loop_round od ts false hA cc st success fs2
          runningAfter mr eout tout).state) := by
  refine ⟨rfl, rfl, fun q => ?_, fun h q => ?_, fun h => ?_,
    fun od ts hA cc st success fs2 runningAfter mr eout tout =>
      MovieRec.round_state_uploader_indep od ts true false hA cc st success fs2
        runningAfter mr eout tout⟩
  · cases out <;> simp [MovieRec.upload_file]
  · cases out with
    | success => exact absurd rfl h
    | clientError => rfl
    | otherError => rfl
  · subst h
    simp [ScreenRec.upload_file, FS.remove]

/-- C7 amended witness: a failing upload of a concrete queued file leaves
the queue drained of the job and the file untouched on disk. -/
theorem C7_upload_failure_policy_witness :
    (MovieRec.upload_worker_step exampleFS ["rec/a.mp4"] UploadOutcome.clientError).2
      = [] ∧
    ScreenRec.upload_file exampleFS "rec/a.mp4" UploadOutcome.clientError "rec/a.mp4"
      = exampleFS "rec/a.mp4" :=
  ⟨(C7_upload_failure_policy exampleFS "rec/a.mp4" [] UploadOutcome.clientError).1,
   (C7_upload_failure_policy exampleFS "rec/a.mp4" []
      UploadOutcome.clientError).2.2.2.1 (by decide) "rec/a.mp4"⟩

/-- C10: in accumulate mode, when a good segment lands (clean exit, file
over the size threshold, at least one earlier segment so the merge tool
actually runs) and the merge fails (`mr = none`), the raw segment is
still appended to the segment list but nothing is fanned out that round —
no upload, no audio extraction, no transcription; when the merge succeeds
the dispatched fan-out targets exactly the accumulated artifact. -/
theorem C10_merge_failure_no_fanout (od ts : String) (hU hA cc : Bool)
    (st : MovieRec.RecorderState) (fs : FS) (runningAfter : Bool)
    (mr : Option Nat) (eout : AudioProcessor.ExtractOutcome)
    (tout : AudioProcessor.BackendOutcome)
    (hacc : st.accumulate = true)
    (hex : fs.exists (MovieRec.get_output_filename od ts st.segment_count) = true)
    (hsz : 1000 < fs.getsize (MovieRec.get_output_filename od ts st.segment_count))
    (hne : st.recorded_segments ≠ []) :
    (mr = none →
       (MovieRec.recording_loop_round od ts hU hA cc st true fs runningAfter
          mr eout tout).dispatched = [] ∧
       (MovieRec.recording_loop_round od ts hU hA cc st true fs runningAfter
          mr eout tout).state.recorded_segments =
         st.recorded_segments ++ [MovieRec.get_output_filename od ts st.segment_count]) ∧
    (∀ sz, mr = some sz →
       (MovieRec.recording_loop_round od ts hU hA cc st true fs runningAfter
          mr eout tout).dispatched =
         MovieRec.process_segment hU hA cc
           (MovieRec.accumulated_filename od st.session_timestamp st.segment_count)
           eout tout) := by
  have hszd : decide (1000 < fs.getsize (MovieRec.get_output_filename od ts st.segment_count)) = true :=
    decide_eq_true hsz
  rcases hsegs : st.recorded_segments with _ | ⟨s0, srest⟩
  · exact absurd hsegs hne
  · constructor
    · intro hmr
      subst hmr
      cases srest <;>
        simp [MovieRec.recording_loop_round, MovieRec.handle_good_segment,
              MovieRec.concatenate_segments, hacc, hex, hszd, hsegs]
    · intro sz hmr
      subst hmr
      cases srest <;>
        simp [MovieRec.recording_loop_round, MovieRec.handle_good_segment,
              MovieRec.concatenate_segments, hacc, hex, hszd, hsegs]

/-- C10 witness: in the second round of the concrete accumulate-mode
session, a failed merge dispatches nothing while the segment list still
grows. -/
theorem C10_merge_failure_no_fanout_witness :
    (MovieRec.recording_loop_round "out" "t" false true false roundA.state true
       roundA.fs true none (AudioProcessor.ExtractOutcome.cleanExit true)
       AudioProcessor.BackendOutcome.backendError).dispatched = [] ∧
    (MovieRec.recording_loop_round "out" "t" false true false roundA.state true
       roundA.fs true none (AudioProcessor.ExtractOutcome.cleanExit true)
       AudioProcessor.BackendOutcome.backendError).state.recorded_segments =
      roundA.state.recorded_segments ++
        [MovieRec.get_output_filename "out" "t" roundA.state.segment_count] :=
  (C10_merge_failure_no_fanout "out" "t" false true false roundA.state roundA.fs
      true none (AudioProcessor.ExtractOutcome.cleanExit true)
      AudioProcessor.BackendOutcome.backendError
      (by decide) (by decide) (by decide) (by decide)).1 rfl

/-- In accumulate mode the good-segment branch always records an
accumulation attempt (the `ConcatResult` is present whether or not the
merge produced an output). -/
theorem MovieRec.handle_good_segment_acc_isSome (od : String) (hU hA cc : Bool)
    (st : MovieRec.RecorderState) (f : String) (fs : FS) (mr : Option Nat)
    (eout : AudioProcessor.ExtractOutcome) (tout : AudioProcessor.BackendOutcome)
    (h : st.accumulate = true) :
    (MovieRec.handle_good_segment od hU hA cc st f fs mr eout tout).2.2.2.isSome = true := by
  simp only [MovieRec.handle_good_segment, h, if_true]
  split <;> rfl

/-- C1: on a stop request with an encoder process in flight, the driver
sends SIGINT first and waits the 5-second grace period; it terminates the
process only when that grace period times out, and kills it only when
termination also times out within the second, shorter (3 < 5 seconds)
timeout — the full escalation being SIGINT, terminate, kill in order —
and the final loop pass after the stop still fans the surviving partial
segment out (directly in normal mode; into accumulation in accumulate
mode) whenever it passes the 1000-byte size threshold.  The hypothesis
restricts to runs where the driver's waits return or time out normally,
the regime the escalation protocol describes. -/
theorem C1_stop_escalation (resp : MovieRec.ProcResponse)
    (od ts : String) (hU hA cc : Bool) (st : MovieRec.RecorderState)
    (fs : FS) (mr : Option Nat) (eout : AudioProcessor.ExtractOutcome)
    (tout : AudioProcessor.BackendOutcome)
    (hresp : resp ≠ MovieRec.ProcResponse.waitRaises) :
    ((MovieRec.stop_actions true resp).head? = some MovieRec.StopAction.sigint) ∧
    (MovieRec.StopAction.terminate ∈ MovieRec.stop_actions true resp ↔
       (resp = MovieRec.ProcResponse.exitsOnTerminate ∨
        resp = MovieRec.ProcResponse.survivesTerminate)) ∧
    (MovieRec.StopAction.kill ∈ MovieRec.stop_actions true resp ↔
       resp = MovieRec.ProcResponse.survivesTerminate) ∧
    (MovieRec.stop_actions true MovieRec.ProcResponse.survivesTerminate =
       [MovieRec.StopAction.sigint, MovieRec.StopAction.terminate,
        MovieRec.StopAction.kill]) ∧
    (MovieRec.terminateTimeoutSeconds < MovieRec.sigintGraceSeconds) ∧
    (fs.exists (MovieRec.get_output_filename od ts st.segment_count) = true →
     1000 < fs.getsize (MovieRec.get_output_filename od ts st.segment_count) →
       (MovieRec.recording_loop_round od ts hU hA cc st false fs false mr
          eout tout).breaks = true ∧
       (st.accumulate = false →
          (MovieRec.recording_loop_round od ts hU hA cc st false fs false mr
             eout tout).dispatched =
            MovieRec.process_segment hU hA cc
              (MovieRec.get_output_filename od ts st.segment_count) eout tout) ∧
       (st.accumulate = true →
          (MovieRec.recording_loop_round od ts hU hA cc st false fs false mr
             eout tout).state.recorded_segments =
            st.recorded_segments ++
              [MovieRec.get_output_filename od ts st.segment_count] ∧
          (MovieRec.recording_loop_round od ts hU hA cc st false fs false mr
             eout tout).acc.isSome = true)) := by
  refine ⟨?_, ?_, ?_, rfl, by decide, fun hex hsz => ?_⟩
  · cases resp <;> decide
  · cases resp <;> decide
  · cases resp <;> first | exact absurd rfl hresp | decide
  · have hszd := decide_eq_true hsz
    refine ⟨?_, fun hdirect => ?_, fun haccm => ?_⟩
    · simp [MovieRec.recording_loop_round, hex, hszd]
    · simp [MovieRec.recording_loop_round, MovieRec.handle_good_segment,
            hex, hszd, hdirect]
    · refine ⟨?_, ?_⟩
      · rw [MovieRec.round_segments]
        simp [haccm, hex, hszd]
      · have hs := MovieRec.handle_good_segment_acc_isSome od hU hA cc st
          (MovieRec.get_output_filename od ts st.segment_count) fs mr eout tout haccm
        simpa [MovieRec.recording_loop_round, hex, hszd] using hs

/-- C1 witness: for a process that survives the SIGINT grace period but
exits on terminate, SIGINT still comes first; and the concrete final loop
pass over a surviving 2000-byte partial segment in normal mode dispatches
the full fan-out for that segment. -/
theorem C1_stop_escalation_witness :
    (MovieRec.stop_actions true MovieRec.ProcResponse.exitsOnTerminate).head? =
      some MovieRec.StopAction.sigint ∧
    (MovieRec.recording_loop_round "out" "t" true true false
       { accumulate := false, segment_count := 0, recorded_segments := [],
         session_timestamp := "t" } false exampleFS false none
       (AudioProcessor.ExtractOutcome.cleanExit true)
       AudioProcessor.BackendOutcome.backendError).dispatched =
      MovieRec.process_segment true true false
        (MovieRec.get_output_filename "out" "t" 0)
        (AudioProcessor.ExtractOutcome.cleanExit true)
        AudioProcessor.BackendOutcome.backendError :=
  ⟨(C1_stop_escalation MovieRec.ProcResponse.exitsOnTerminate "out" "t" true true
      false { accumulate := false, segment_count := 0, recorded_segments := [],
              session_timestamp := "t" } exampleFS none
      (AudioProcessor.ExtractOutcome.cleanExit true)
      AudioProcessor.BackendOutcome.backendError (by decide)).1,
   ((C1_stop_escalation MovieRec.ProcResponse.exitsOnTerminate "out" "t" true true
      false { accumulate := false, segment_count := 0, recorded_segments := [],
              session_timestamp := "t" } exampleFS none
      (AudioProcessor.ExtractOutcome.cleanExit true)
      AudioProcessor.BackendOutcome.backendError (by decide)).2.2.2.2.2
      (by decide) (by decide)).2.1 rfl⟩
